import Mathlib

/-!
Verification development for the imperfectcoach on-chain programs
(src/contracts/SolanaAgentRegistry.rs, src/contracts/SolanaLeaderboard.rs,
src/contracts/SolanaPullupsLeaderboard.rs).

Shallow embedding conventions:
- Rust u64 / u32 values are Nat; Pubkey is Nat; i64 timestamps are Int.
- Each instruction handler becomes a pure function on the records it names,
  returning Except Err: an error models a rejected transaction, which the
  runtime rolls back leaving no state change.
-/

/-- Error outcomes of an operation: the explicit program error
(Unauthorized, from the AgentError enum), the account-layer failures
raised by the framework constraints (AlreadyExists for init on an occupied
address, NotFound for a missing required account), and arithmetic overflow
aborting a transaction. -/
inductive Err where
  | Unauthorized
  | AlreadyExists
  | NotFound
  | Overflow
  deriving DecidableEq, Repr

/-- Maximum value of an unsigned 64-bit integer. -/
def U64MAX : Nat := 2 ^ 64 - 1

/-- Modelled from the spec: the Rust sources use plain 64-bit addition, whose
overflow behavior is fixed by the build profile (Cargo.toml, not under src/).
The spec states that arithmetic never overflows unsigned counters silently and
that a rejected operation leaves no partial state, so 64-bit addition aborts
the whole operation on overflow instead of wrapping. -/
def u64add (a b : Nat) : Except Err Nat :=
  if a + b ≤ U64MAX then .ok (a + b) else .error .Overflow

/-- Saturating 64-bit increment, embedding Rust saturating_add 1:
clamps at U64MAX instead of wrapping. -/
def u64saturating_add1 (a : Nat) : Nat :=
  min (a + 1) U64MAX

namespace solana_agent_registry

/-- The AgentProfile account of SolanaAgentRegistry.rs. -/
structure AgentProfile where
  authority : Nat
  name : String
  endpoint : String
  capabilities : List String
  base_fee : Nat
  asset_mint : Nat
  reputation_score : Nat
  total_jobs : Nat
  registered_at : Int
  is_active : Bool
  deriving DecidableEq, Repr

/-- register_agent: the RegisterAgent context creates (init) the profile
account at the address derived from the caller, so a resident record makes
the instruction fail with AlreadyExists; otherwise the account starts
zero-initialized and the handler sets the listed fields, leaving base_fee
and asset_mint at their zero defaults. -/
def register_agent (existing : Option AgentProfile) (authority : Nat)
    (now : Int) (name : String) (endpoint : String)
    (capabilities : List String) : Except Err AgentProfile :=
  match existing with
  | some _ => .error .AlreadyExists
  | none =>
    .ok { authority := authority
          name := name
          endpoint := endpoint
          capabilities := capabilities
          base_fee := 0
          asset_mint := 0
          reputation_score := 0
          total_jobs := 0
          registered_at := now
          is_active := true }

/-- update_pricing: verifies the stored authority against the caller,
then overwrites base_fee and asset_mint. -/
def update_pricing (agent_profile : AgentProfile) (authority : Nat)
    (base_fee : Nat) (asset_mint : Nat) : Except Err AgentProfile :=
  if agent_profile.authority = authority then
    .ok { agent_profile with base_fee := base_fee, asset_mint := asset_mint }
  else
    .error .Unauthorized

/-- report_job_completion: increments total_jobs unconditionally; on
success increments reputation_score with saturating addition. -/
def report_job_completion (agent_profile : AgentProfile) (success : Bool) :
    Except Err AgentProfile := do
  let total_jobs ← u64add agent_profile.total_jobs 1
  let reputation_score :=
    if success then u64saturating_add1 agent_profile.reputation_score
    else agent_profile.reputation_score
  .ok { agent_profile with
        total_jobs := total_jobs
        reputation_score := reputation_score }

/-- The instruction surface of the agent registry program. -/
inductive AgentOp where
  | registerAgent (authority : Nat) (now : Int) (name : String)
      (endpoint : String) (capabilities : List String)
  | updatePricing (authority : Nat) (base_fee : Nat) (asset_mint : Nat)
  | reportJob (success : Bool)

/-- Apply one instruction to the (possibly absent) profile record it names.
updatePricing and reportJob require the account to exist. -/
def applyAgentOp (s : Option AgentProfile) :
    AgentOp → Except Err (Option AgentProfile)
  | .registerAgent a now n e c =>
    (register_agent s a now n e c).map some
  | .updatePricing a f m =>
    match s with
    | none => .error .NotFound
    | some p => (update_pricing p a f m).map some
  | .reportJob success =>
    match s with
    | none => .error .NotFound
    | some p => (report_job_completion p success).map some

/-- Transaction-level commit: a rejected operation is rolled back by the
runtime, leaving the record as it was. -/
def commitAgent (p : AgentProfile) : Except Err AgentProfile → AgentProfile
  | .ok q => q
  | .error _ => p

/-- Repeatedly apply accepted successful job reports. -/
def reportSeq : AgentProfile → Nat → Except Err AgentProfile
  | p, 0 => .ok p
  | p, n + 1 => do
    let p1 ← report_job_completion p true
    reportSeq p1 n

end solana_agent_registry

namespace solana_leaderboard

/-- The Leaderboard account of SolanaLeaderboard.rs. -/
structure Leaderboard where
  exercise_name : String
  total_participants : Nat
  total_submissions : Nat
  deriving DecidableEq, Repr

/-- The UserScore account of SolanaLeaderboard.rs (combined variant, with
per-category pullups and jumps counters). -/
structure UserScore where
  user : Nat
  total_score : Nat
  best_single_score : Nat
  pullups : Nat
  jumps : Nat
  submission_count : Nat
  last_submission_time : Nat
  first_submission_time : Nat
  deriving DecidableEq, Repr

/-- The initialize instruction: sets the exercise name and zeroes both
counters of a freshly created leaderboard account. -/
def initLeaderboard (exercise_name : String) : Leaderboard :=
  { exercise_name := exercise_name
    total_participants := 0
    total_submissions := 0 }

/-- Account data of a freshly allocated UserScore account: the runtime
zero-initializes every field. -/
def zeroUserScore : UserScore :=
  { user := 0
    total_score := 0
    best_single_score := 0
    pullups := 0
    jumps := 0
    submission_count := 0
    last_submission_time := 0
    first_submission_time := 0 }

/-- The score computation of submit_score, line 32: widens both u32 inputs
to u64 and adds them in 64-bit arithmetic. -/
def combinedScore (pullups : Nat) (jumps : Nat) : Except Err Nat :=
  u64add pullups jumps

/-- submit_score of the combined variant: computes the widened score,
remembers is_new_user from the pre-update submission_count, accumulates the
score and category counters, stamps last_submission_time, on a new user
stamps first_submission_time and bumps leaderboard.total_participants,
raises best_single_score when beaten, and bumps total_submissions. -/
def submit_score (leaderboard : Leaderboard) (user_score : UserScore)
    (user : Nat) (now : Nat) (pullups : Nat) (jumps : Nat) :
    Except Err (Leaderboard × UserScore) := do
  let score ← combinedScore pullups jumps
  let is_new_user := user_score.submission_count == 0
  let total_score ← u64add user_score.total_score score
  let pullups_total ← u64add user_score.pullups pullups
  let jumps_total ← u64add user_score.jumps jumps
  let submission_count ← u64add user_score.submission_count 1
  let user_score := { user_score with
    user := user
    total_score := total_score
    pullups := pullups_total
    jumps := jumps_total
    submission_count := submission_count
    last_submission_time := now }
  let (leaderboard, user_score) ←
    if is_new_user then do
      let total_participants ← u64add leaderboard.total_participants 1
      pure ({ leaderboard with total_participants := total_participants },
            { user_score with first_submission_time := now })
    else
      pure (leaderboard, user_score)
  let user_score :=
    if user_score.best_single_score < score then
      { user_score with best_single_score := score }
    else user_score
  let total_submissions ← u64add leaderboard.total_submissions 1
  .ok ({ leaderboard with total_submissions := total_submissions }, user_score)

/-- Transaction-level submit_score: the SubmitScore context of the combined
variant demands an existing user_score account (mut with seeds, no init),
so a submission naming an absent record fails instead of creating it. -/
def submit_score_txn (leaderboard : Leaderboard)
    (stored : Option UserScore) (user : Nat) (now : Nat)
    (pullups : Nat) (jumps : Nat) : Except Err (Leaderboard × UserScore) :=
  match stored with
  | none => .error .NotFound
  | some user_score => submit_score leaderboard user_score user now pullups jumps

/-- One submit_score call: its clock reading and its two u32 inputs. -/
structure SubmitCall where
  now : Nat
  pullups : Nat
  jumps : Nat
  deriving DecidableEq, Repr

/-- The score value a call contributes. -/
def SubmitCall.score (c : SubmitCall) : Nat :=
  c.pullups + c.jumps

/-- Apply a sequence of submit_score calls by one user to one leaderboard
and one user-score record; the sequence is accepted when every call is. -/
def submitSeq : Leaderboard → UserScore → Nat → List SubmitCall →
    Except Err (Leaderboard × UserScore)
  | lb, us, _, [] => .ok (lb, us)
  | lb, us, u, c :: rest => do
    let (lb1, us1) ← submit_score lb us u c.now c.pullups c.jumps
    submitSeq lb1 us1 u rest

end solana_leaderboard

namespace solana_pullups_leaderboard

/-- The Leaderboard account of SolanaPullupsLeaderboard.rs. -/
structure Leaderboard where
  exercise_name : String
  total_participants : Nat
  total_submissions : Nat
  deriving DecidableEq, Repr

/-- The UserScore account of SolanaPullupsLeaderboard.rs (single-exercise
variant, no per-category counters). -/
structure UserScore where
  user : Nat
  total_score : Nat
  best_single_score : Nat
  submission_count : Nat
  last_submission_time : Nat
  first_submission_time : Nat
  deriving DecidableEq, Repr

/-- The initialize instruction of the pullups variant: fixed exercise name,
both counters zero. -/
def initLeaderboard : Leaderboard :=
  { exercise_name := "pullups"
    total_participants := 0
    total_submissions := 0 }

/-- Account data of a freshly allocated UserScore account (zeroed). -/
def zeroUserScore : UserScore :=
  { user := 0
    total_score := 0
    best_single_score := 0
    submission_count := 0
    last_submission_time := 0
    first_submission_time := 0 }

/-- submit_score of the pullups variant: widens the u32 score to u64,
accumulates it, stamps timestamps, handles the new-user transition, the
best-score update and the leaderboard counters. -/
def submit_score (leaderboard : Leaderboard) (user_score : UserScore)
    (user : Nat) (now : Nat) (score : Nat) :
    Except Err (Leaderboard × UserScore) := do
  let score_u64 := score
  let is_new_user := user_score.submission_count == 0
  let total_score ← u64add user_score.total_score score_u64
  let submission_count ← u64add user_score.submission_count 1
  let user_score := { user_score with
    user := user
    total_score := total_score
    submission_count := submission_count
    last_submission_time := now }
  let (leaderboard, user_score) ←
    if is_new_user then do
      let total_participants ← u64add leaderboard.total_participants 1
      pure ({ leaderboard with total_participants := total_participants },
            { user_score with first_submission_time := now })
    else
      pure (leaderboard, user_score)
  let user_score :=
    if user_score.best_single_score < score_u64 then
      { user_score with best_single_score := score_u64 }
    else user_score
  let total_submissions ← u64add leaderboard.total_submissions 1
  .ok ({ leaderboard with total_submissions := total_submissions }, user_score)

/-- Transaction-level submit_score: the SubmitScore context of the pullups
variant uses init_if_needed, so an absent user_score account is created
zero-initialized (paid by the user) before the handler runs. -/
def submit_score_txn (leaderboard : Leaderboard)
    (stored : Option UserScore) (user : Nat) (now : Nat) (score : Nat) :
    Except Err (Leaderboard × UserScore) :=
  submit_score leaderboard (stored.getD zeroUserScore) user now score

/-- One submit_score call of the pullups variant. -/
structure PullupCall where
  now : Nat
  score : Nat
  deriving DecidableEq, Repr

/-- The score value a call contributes. -/
def PullupCall.score_value (c : PullupCall) : Nat :=
  c.score

/-- Apply a sequence of submit_score calls by one user. -/
def submitSeq : Leaderboard → UserScore → Nat → List PullupCall →
    Except Err (Leaderboard × UserScore)
  | lb, us, _, [] => .ok (lb, us)
  | lb, us, u, c :: rest => do
    let (lb1, us1) ← submit_score lb us u c.now c.score
    submitSeq lb1 us1 u rest

end solana_pullups_leaderboard

def c1Calls : List solana_leaderboard.SubmitCall :=
  [⟨100, 10, 0⟩, ⟨200, 15, 0⟩, ⟨300, 5, 0⟩]
def c1LbOut : solana_leaderboard.Leaderboard := ⟨"combined", 1, 3⟩
def c1UsOut : solana_leaderboard.UserScore := ⟨1, 30, 15, 30, 0, 3, 300, 100⟩
def c1PCalls : List solana_pullups_leaderboard.PullupCall :=
  [⟨100, 10⟩, ⟨200, 15⟩, ⟨300, 5⟩]
def c1PLbOut : solana_pullups_leaderboard.Leaderboard := ⟨"pullups", 1, 3⟩
def c1PUsOut : solana_pullups_leaderboard.UserScore := ⟨1, 30, 15, 3, 300, 100⟩
def c2Call1 : solana_leaderboard.SubmitCall := ⟨100, 10, 2⟩
def c2Rest : List solana_leaderboard.SubmitCall := [⟨200, 3, 4⟩]
def c2LbIn : solana_leaderboard.Leaderboard := ⟨"L", 5, 7⟩
def c2LbOut : solana_leaderboard.Leaderboard := ⟨"L", 6, 9⟩
def c2UsOut : solana_leaderboard.UserScore := ⟨1, 19, 12, 13, 6, 2, 200, 100⟩
def c2LbIn2 : solana_leaderboard.Leaderboard := ⟨"L", 4, 10⟩
def c2UsIn2 : solana_leaderboard.UserScore := ⟨1, 5, 5, 3, 2, 1, 50, 40⟩
def c2LbOut2 : solana_leaderboard.Leaderboard := ⟨"L", 4, 11⟩
def c2UsOut2 : solana_leaderboard.UserScore := ⟨1, 7, 5, 4, 3, 2, 60, 40⟩
def c2PCall1 : solana_pullups_leaderboard.PullupCall := ⟨100, 10⟩
def c2PRest : List solana_pullups_leaderboard.PullupCall := [⟨200, 3⟩]
def c2PLbIn : solana_pullups_leaderboard.Leaderboard := ⟨"pullups", 5, 7⟩
def c2PLbOut : solana_pullups_leaderboard.Leaderboard := ⟨"pullups", 6, 9⟩
def c2PUsOut : solana_pullups_leaderboard.UserScore := ⟨1, 13, 10, 2, 200, 100⟩
def c2PLbIn2 : solana_pullups_leaderboard.Leaderboard := ⟨"pullups", 4, 10⟩
def c2PUsIn2 : solana_pullups_leaderboard.UserScore := ⟨1, 5, 5, 1, 50, 40⟩
def c2PLbOut2 : solana_pullups_leaderboard.Leaderboard := ⟨"pullups", 4, 11⟩
def c2PUsOut2 : solana_pullups_leaderboard.UserScore := ⟨1, 7, 5, 2, 60, 40⟩
def c3Profile : solana_agent_registry.AgentProfile :=
  ⟨1, "agentA", "endpointA", ["chat"], 50, 7, 0, 0, 0, true⟩
def c5Profile : solana_agent_registry.AgentProfile :=
  ⟨1, "a", "e", [], 0, 0, U64MAX, 0, 0, true⟩
def c5ProfileOut : solana_agent_registry.AgentProfile :=
  ⟨1, "a", "e", [], 0, 0, U64MAX, 3, 0, true⟩
def c5ProfileStep : solana_agent_registry.AgentProfile :=
  ⟨1, "a", "e", [], 0, 0, U64MAX, 1, 0, true⟩
def c6LbIn : solana_leaderboard.Leaderboard := ⟨"L", 1, 2⟩
def c6LbOut : solana_leaderboard.Leaderboard := ⟨"L", 2, 3⟩
def c6UsOut : solana_leaderboard.UserScore := ⟨1, 5, 5, 2, 3, 1, 10, 10⟩
def c6PLbIn : solana_pullups_leaderboard.Leaderboard := ⟨"pullups", 1, 2⟩
def c6PLbOut : solana_pullups_leaderboard.Leaderboard := ⟨"pullups", 2, 3⟩
def c6PUsOut : solana_pullups_leaderboard.UserScore := ⟨1, 4, 4, 1, 10, 10⟩
def c8ProfileOut : solana_agent_registry.AgentProfile :=
  ⟨1, "agentA", "endpointA", ["chat"], 50, 7, 1, 1, 0, true⟩
def c10UsIn : solana_leaderboard.UserScore := ⟨1, 5, 3, 4, 1, 1, 10, 10⟩
def c10UsOut : solana_leaderboard.UserScore := ⟨1, 10, 5, 6, 4, 2, 20, 10⟩
def c10LbIn : solana_leaderboard.Leaderboard := ⟨"L", 1, 3⟩
def c10LbOut : solana_leaderboard.Leaderboard := ⟨"L", 1, 4⟩

/-- Bind on a rejected Except is rejected. -/
theorem err_bind {α β : Type} (e : Err) (f : α → Except Err β) :
    (Except.error e >>= f : Except Err β) = Except.error e := rfl

/-- Bind on an accepted Except runs the continuation. -/
theorem ok_bind {α β : Type} (a : α) (f : α → Except Err β) :
    (Except.ok a >>= f : Except Err β) = f a := rfl

/-- An accepted bind decomposes into an accepted first step and an accepted
continuation. -/
theorem except_bind_ok {α β : Type} {x : Except Err α} {f : α → Except Err β}
    {r : β} (h : x >>= f = .ok r) : ∃ a, x = .ok a ∧ f a = .ok r := by
  cases x with
  | error e => exact absurd h (by simp [err_bind])
  | ok a => exact ⟨a, rfl, h⟩

open solana_leaderboard in
/-- Characterization of an accepted submit_score call of the combined
variant: how every field of the resulting records relates to the inputs. -/
theorem sl_submit_score_ok (lb : Leaderboard) (us : UserScore)
    (u now p j : Nat) (r : Leaderboard × UserScore)
    (h : submit_score lb us u now p j = .ok r) :
    r.2.total_score = us.total_score + (p + j) ∧
    r.2.best_single_score = max us.best_single_score (p + j) ∧
    r.2.submission_count = us.submission_count + 1 ∧
    r.2.pullups = us.pullups + p ∧
    r.2.jumps = us.jumps + j ∧
    r.2.last_submission_time = now ∧
    r.2.user = u ∧
    r.1.exercise_name = lb.exercise_name ∧
    r.1.total_submissions = lb.total_submissions + 1 ∧
    (us.submission_count = 0 →
      r.2.first_submission_time = now ∧
      r.1.total_participants = lb.total_participants + 1) ∧
    (us.submission_count ≠ 0 →
      r.2.first_submission_time = us.first_submission_time ∧
      r.1.total_participants = lb.total_participants) := by
  have one_le : (1 : Nat) ≤ U64MAX := by decide
  by_cases h1 : p + j ≤ U64MAX
  case neg =>
    simp [submit_score, combinedScore, u64add, err_bind, ok_bind, h1] at h
  by_cases h2 : us.total_score + (p + j) ≤ U64MAX
  case neg =>
    simp [submit_score, combinedScore, u64add, err_bind, ok_bind, h1, h2] at h
  by_cases h3 : us.pullups + p ≤ U64MAX
  case neg =>
    simp [submit_score, combinedScore, u64add, err_bind, ok_bind, h1, h2, h3] at h
  by_cases h4 : us.jumps + j ≤ U64MAX
  case neg =>
    simp [submit_score, combinedScore, u64add, err_bind, ok_bind, h1, h2, h3, h4] at h
  by_cases h5 : us.submission_count + 1 ≤ U64MAX
  case neg =>
    simp [submit_score, combinedScore, u64add, err_bind, ok_bind, h1, h2, h3, h4, h5,
      one_le] at h
  by_cases h7 : lb.total_submissions + 1 ≤ U64MAX
  case neg =>
    by_cases hn : us.submission_count = 0
    · by_cases h6 : lb.total_participants + 1 ≤ U64MAX
      · simp [submit_score, combinedScore, u64add, err_bind, ok_bind, h1, h2, h3, h4, h5,
          h6, h7, hn, one_le] at h
      · simp [submit_score, combinedScore, u64add, err_bind, ok_bind, h1, h2, h3, h4, h5,
          h6, hn, one_le] at h
    · simp [submit_score, combinedScore, u64add, err_bind, ok_bind, h1, h2, h3, h4, h5,
        h7, hn, one_le] at h
  by_cases hn : us.submission_count = 0
  · by_cases h6 : lb.total_participants + 1 ≤ U64MAX
    case neg =>
      simp [submit_score, combinedScore, u64add, err_bind, ok_bind, h1, h2, h3, h4, h5,
        h6, hn, one_le] at h
    by_cases hb : us.best_single_score < p + j
    · simp [submit_score, combinedScore, u64add, err_bind, ok_bind, h1, h2, h3, h4, h5,
        h6, h7, hn, hb, one_le] at h
      subst h
      simp [hn, hb]
      omega
    · simp [submit_score, combinedScore, u64add, err_bind, ok_bind, h1, h2, h3, h4, h5,
        h6, h7, hn, hb, one_le] at h
      subst h
      simp [hn, hb]
      omega
  · by_cases hb : us.best_single_score < p + j
    · simp [submit_score, combinedScore, u64add, err_bind, ok_bind, h1, h2, h3, h4, h5,
        h7, hn, hb, one_le] at h
      subst h
      simp [hn, hb]
      omega
    · simp [submit_score, combinedScore, u64add, err_bind, ok_bind, h1, h2, h3, h4, h5,
        h7, hn, hb, one_le] at h
      subst h
      simp [hn, hb]
      omega

open solana_pullups_leaderboard in
/-- Characterization of an accepted submit_score call of the pullups
variant. -/
theorem sp_submit_score_ok (lb : Leaderboard) (us : UserScore)
    (u now s : Nat) (r : Leaderboard × UserScore)
    (h : submit_score lb us u now s = .ok r) :
    r.2.total_score = us.total_score + s ∧
    r.2.best_single_score = max us.best_single_score s ∧
    r.2.submission_count = us.submission_count + 1 ∧
    r.2.last_submission_time = now ∧
    r.2.user = u ∧
    r.1.exercise_name = lb.exercise_name ∧
    r.1.total_submissions = lb.total_submissions + 1 ∧
    (us.submission_count = 0 →
      r.2.first_submission_time = now ∧
      r.1.total_participants = lb.total_participants + 1) ∧
    (us.submission_count ≠ 0 →
      r.2.first_submission_time = us.first_submission_time ∧
      r.1.total_participants = lb.total_participants) := by
  have one_le : (1 : Nat) ≤ U64MAX := by decide
  by_cases h2 : us.total_score + s ≤ U64MAX
  case neg =>
    simp [submit_score, u64add, err_bind, ok_bind, h2] at h
  by_cases h5 : us.submission_count + 1 ≤ U64MAX
  case neg =>
    simp [submit_score, u64add, err_bind, ok_bind, h2, h5, one_le] at h
  by_cases h7 : lb.total_submissions + 1 ≤ U64MAX
  case neg =>
    by_cases hn : us.submission_count = 0
    · by_cases h6 : lb.total_participants + 1 ≤ U64MAX
      · simp [submit_score, u64add, err_bind, ok_bind, h2, h5, h6, h7, hn, one_le] at h
      · simp [submit_score, u64add, err_bind, ok_bind, h2, h5, h6, hn, one_le] at h
    · simp [submit_score, u64add, err_bind, ok_bind, h2, h5, h7, hn, one_le] at h
  by_cases hn : us.submission_count = 0
  · by_cases h6 : lb.total_participants + 1 ≤ U64MAX
    case neg =>
      simp [submit_score, u64add, err_bind, ok_bind, h2, h5, h6, hn, one_le] at h
    by_cases hb : us.best_single_score < s
    · simp [submit_score, u64add, err_bind, ok_bind, h2, h5, h6, h7, hn, hb, one_le] at h
      subst h
      simp [hn, hb]
      omega
    · simp [submit_score, u64add, err_bind, ok_bind, h2, h5, h6, h7, hn, hb, one_le] at h
      subst h
      simp [hn, hb]
      omega
  · by_cases hb : us.best_single_score < s
    · simp [submit_score, u64add, err_bind, ok_bind, h2, h5, h7, hn, hb, one_le] at h
      subst h
      simp [hn, hb]
      omega
    · simp [submit_score, u64add, err_bind, ok_bind, h2, h5, h7, hn, hb, one_le] at h
      subst h
      simp [hn, hb]
      omega

open solana_leaderboard in
/-- Accumulators over an accepted call sequence, combined variant: total,
best and count relate to the per-call scores. -/
theorem sl_submitSeq_totals (calls : List SubmitCall) :
    ∀ lb us u lb' us', submitSeq lb us u calls = .ok (lb', us') →
      us'.total_score = us.total_score + (calls.map SubmitCall.score).sum ∧
      us'.best_single_score =
        (calls.map SubmitCall.score).foldl max us.best_single_score ∧
      us'.submission_count = us.submission_count + calls.length := by
  induction calls with
  | nil =>
    intro lb us u lb' us' h
    simp only [submitSeq] at h
    obtain ⟨h1, h2⟩ := Prod.mk.injEq .. ▸ (Except.ok.inj h)
    subst h1; subst h2
    simp
  | cons c rest ih =>
    intro lb us u lb' us' h
    simp only [submitSeq] at h
    obtain ⟨⟨lb1, us1⟩, h1, h2⟩ := except_bind_ok h
    have step := sl_submit_score_ok lb us u c.now c.pullups c.jumps (lb1, us1) h1
    have tail := ih lb1 us1 u lb' us' h2
    simp only [SubmitCall.score, List.map_cons, List.sum_cons, List.foldl_cons,
      List.length_cons] at *
    obtain ⟨e1, e2, e3, -⟩ := step
    obtain ⟨t1, t2, t3⟩ := tail
    refine ⟨?_, ?_, ?_⟩
    · rw [t1, e1]; omega
    · rw [t2, e2]
    · rw [t3, e3]; omega

open solana_leaderboard in
/-- Once a record has a nonzero submission_count, an accepted call sequence
of the combined variant never changes first_submission_time or
total_participants. -/
theorem sl_submitSeq_preserve (calls : List SubmitCall) :
    ∀ lb us u lb' us', us.submission_count ≠ 0 →
      submitSeq lb us u calls = .ok (lb', us') →
      us'.first_submission_time = us.first_submission_time ∧
      lb'.total_participants = lb.total_participants := by
  induction calls with
  | nil =>
    intro lb us u lb' us' hne h
    simp only [submitSeq] at h
    obtain ⟨h1, h2⟩ := Prod.mk.injEq .. ▸ (Except.ok.inj h)
    subst h1; subst h2
    exact ⟨rfl, rfl⟩
  | cons c rest ih =>
    intro lb us u lb' us' hne h
    simp only [submitSeq] at h
    obtain ⟨⟨lb1, us1⟩, h1, h2⟩ := except_bind_ok h
    have step := sl_submit_score_ok lb us u c.now c.pullups c.jumps (lb1, us1) h1
    obtain ⟨-, -, ecount, -, -, -, -, -, -, -, hold⟩ := step
    obtain ⟨f1, p1⟩ := hold hne
    have tail := ih lb1 us1 u lb' us' (by simp only [] at ecount; omega) h2
    exact ⟨tail.1.trans f1, tail.2.trans p1⟩

open solana_pullups_leaderboard in
/-- Accumulators over an accepted call sequence, pullups variant. -/
theorem sp_submitSeq_totals (calls : List PullupCall) :
    ∀ lb us u lb' us', submitSeq lb us u calls = .ok (lb', us') →
      us'.total_score = us.total_score + (calls.map PullupCall.score_value).sum ∧
      us'.best_single_score =
        (calls.map PullupCall.score_value).foldl max us.best_single_score ∧
      us'.submission_count = us.submission_count + calls.length := by
  induction calls with
  | nil =>
    intro lb us u lb' us' h
    simp only [submitSeq] at h
    obtain ⟨h1, h2⟩ := Prod.mk.injEq .. ▸ (Except.ok.inj h)
    subst h1; subst h2
    simp
  | cons c rest ih =>
    intro lb us u lb' us' h
    simp only [submitSeq] at h
    obtain ⟨⟨lb1, us1⟩, h1, h2⟩ := except_bind_ok h
    have step := sp_submit_score_ok lb us u c.now c.score (lb1, us1) h1
    have tail := ih lb1 us1 u lb' us' h2
    simp only [PullupCall.score_value, List.map_cons, List.sum_cons,
      List.foldl_cons, List.length_cons] at *
    obtain ⟨e1, e2, e3, -⟩ := step
    obtain ⟨t1, t2, t3⟩ := tail
    refine ⟨?_, ?_, ?_⟩
    · rw [t1, e1]; omega
    · rw [t2, e2]
    · rw [t3, e3]; omega

open solana_pullups_leaderboard in
/-- Once a record has a nonzero submission_count, an accepted call sequence
of the pullups variant never changes first_submission_time or
total_participants. -/
theorem sp_submitSeq_preserve (calls : List PullupCall) :
    ∀ lb us u lb' us', us.submission_count ≠ 0 →
      submitSeq lb us u calls = .ok (lb', us') →
      us'.first_submission_time = us.first_submission_time ∧
      lb'.total_participants = lb.total_participants := by
  induction calls with
  | nil =>
    intro lb us u lb' us' hne h
    simp only [submitSeq] at h
    obtain ⟨h1, h2⟩ := Prod.mk.injEq .. ▸ (Except.ok.inj h)
    subst h1; subst h2
    exact ⟨rfl, rfl⟩
  | cons c rest ih =>
    intro lb us u lb' us' hne h
    simp only [submitSeq] at h
    obtain ⟨⟨lb1, us1⟩, h1, h2⟩ := except_bind_ok h
    have step := sp_submit_score_ok lb us u c.now c.score (lb1, us1) h1
    obtain ⟨-, -, ecount, -, -, -, -, -, hold⟩ := step
    obtain ⟨f1, p1⟩ := hold hne
    have tail := ih lb1 us1 u lb' us' (by simp only [] at ecount; omega) h2
    exact ⟨tail.1.trans f1, tail.2.trans p1⟩

open solana_agent_registry in
/-- Characterization of an accepted report_job_completion call. -/
theorem report_ok (p : AgentProfile) (s : Bool) (p' : AgentProfile)
    (h : report_job_completion p s = .ok p') :
    p'.total_jobs = p.total_jobs + 1 ∧
    p'.reputation_score =
      (if s then min (p.reputation_score + 1) U64MAX else p.reputation_score) ∧
    p'.authority = p.authority ∧ p.total_jobs + 1 ≤ U64MAX := by
  by_cases hj : p.total_jobs + 1 ≤ U64MAX
  · simp [report_job_completion, u64add, u64saturating_add1, err_bind, ok_bind, hj] at h
    subst h
    simp [hj]
  · simp [report_job_completion, u64add, err_bind, ok_bind, hj] at h

/-- Claim C1: for every sequence of accepted submit_score calls applied to a
single UserScore record, in either leaderboard variant and starting from the
zero-initialized record, the resulting total_score equals the exact sum of
the per-call score values, best_single_score equals the maximum of those
score values, and submission_count equals the number of calls in the
sequence. -/
theorem claimC1_totals :
    (∀ lb u calls lb' us',
      solana_leaderboard.submitSeq lb solana_leaderboard.zeroUserScore u calls =
        .ok (lb', us') →
      us'.total_score = (calls.map solana_leaderboard.SubmitCall.score).sum ∧
      us'.best_single_score =
        (calls.map solana_leaderboard.SubmitCall.score).foldl max 0 ∧
      us'.submission_count = calls.length) ∧
    (∀ lb u calls lb' us',
      solana_pullups_leaderboard.submitSeq lb
          solana_pullups_leaderboard.zeroUserScore u calls = .ok (lb', us') →
      us'.total_score =
        (calls.map solana_pullups_leaderboard.PullupCall.score_value).sum ∧
      us'.best_single_score =
        (calls.map solana_pullups_leaderboard.PullupCall.score_value).foldl max 0 ∧
      us'.submission_count = calls.length) := by
  constructor
  · intro lb u calls lb' us' h
    have hseq := sl_submitSeq_totals calls lb solana_leaderboard.zeroUserScore u lb' us' h
    simpa [solana_leaderboard.zeroUserScore] using hseq
  · intro lb u calls lb' us' h
    have hseq := sp_submitSeq_totals calls lb solana_pullups_leaderboard.zeroUserScore u lb' us' h
    simpa [solana_pullups_leaderboard.zeroUserScore] using hseq

/-- Claim C2: the new-user branch, decided by submission_count == 0 before
the update, executes exactly once, on the first accepted call: that call
sets first_submission_time to its clock reading and increments
total_participants by one, and every accepted call on a record whose
submission_count is nonzero leaves both unchanged, in both variants. -/
theorem claimC2_new_user_once :
    (∀ lb u c rest lb' us',
      solana_leaderboard.submitSeq lb solana_leaderboard.zeroUserScore u
          (c :: rest) = .ok (lb', us') →
      us'.first_submission_time = c.now ∧
      lb'.total_participants = lb.total_participants + 1) ∧
    (∀ lb us u now p j lb' us', us.submission_count ≠ 0 →
      solana_leaderboard.submit_score lb us u now p j = .ok (lb', us') →
      us'.first_submission_time = us.first_submission_time ∧
      lb'.total_participants = lb.total_participants) ∧
    (∀ lb u c rest lb' us',
      solana_pullups_leaderboard.submitSeq lb
          solana_pullups_leaderboard.zeroUserScore u (c :: rest) = .ok (lb', us') →
      us'.first_submission_time = c.now ∧
      lb'.total_participants = lb.total_participants + 1) ∧
    (∀ lb us u now s lb' us', us.submission_count ≠ 0 →
      solana_pullups_leaderboard.submit_score lb us u now s = .ok (lb', us') →
      us'.first_submission_time = us.first_submission_time ∧
      lb'.total_participants = lb.total_participants) := by
  refine ⟨?_, ?_, ?_, ?_⟩
  · intro lb u c rest lb' us' h
    simp only [solana_leaderboard.submitSeq] at h
    obtain ⟨⟨lb1, us1⟩, h1, h2⟩ := except_bind_ok h
    have step := sl_submit_score_ok lb solana_leaderboard.zeroUserScore u
      c.now c.pullups c.jumps (lb1, us1) h1
    obtain ⟨-, -, ecount, -, -, -, -, -, -, hnew, -⟩ := step
    obtain ⟨f1, p1⟩ := hnew rfl
    simp only [] at ecount f1 p1
    have tail := sl_submitSeq_preserve rest lb1 us1 u lb' us'
      (by simp only [solana_leaderboard.zeroUserScore] at ecount; omega) h2
    exact ⟨tail.1.trans f1, tail.2.trans p1⟩
  · intro lb us u now p j lb' us' hne h
    have step := sl_submit_score_ok lb us u now p j (lb', us') h
    exact step.2.2.2.2.2.2.2.2.2.2 hne
  · intro lb u c rest lb' us' h
    simp only [solana_pullups_leaderboard.submitSeq] at h
    obtain ⟨⟨lb1, us1⟩, h1, h2⟩ := except_bind_ok h
    have step := sp_submit_score_ok lb solana_pullups_leaderboard.zeroUserScore u
      c.now c.score (lb1, us1) h1
    obtain ⟨-, -, ecount, -, -, -, -, hnew, -⟩ := step
    obtain ⟨f1, p1⟩ := hnew rfl
    simp only [] at ecount f1 p1
    have tail := sp_submitSeq_preserve rest lb1 us1 u lb' us'
      (by simp only [solana_pullups_leaderboard.zeroUserScore] at ecount; omega) h2
    exact ⟨tail.1.trans f1, tail.2.trans p1⟩
  · intro lb us u now s lb' us' hne h
    have step := sp_submit_score_ok lb us u now s (lb', us') h
    exact step.2.2.2.2.2.2.2.2 hne

open solana_agent_registry in
/-- Claim C3: update_pricing called by an identity different from the stored
authority fails with Unauthorized, and the committed record keeps every
field at its pre-call value (no partial commit). -/
theorem claimC3_update_pricing_unauthorized :
    ∀ p caller fee mint, caller ≠ p.authority →
      update_pricing p caller fee mint = .error .Unauthorized ∧
      commitAgent p (update_pricing p caller fee mint) = p := by
  intro p caller fee mint hne
  have hne' : ¬(p.authority = caller) := fun hh => hne hh.symm
  refine ⟨?_, ?_⟩ <;> simp [update_pricing, commitAgent, hne']

open solana_agent_registry in
/-- Claim C4: register_agent on an occupied derived address fails with
AlreadyExists and the resident profile commits unchanged; on a free address
it creates a profile with reputation_score 0, total_jobs 0, registered_at
set to now, is_active true, and the caller stored as authority. -/
theorem claimC4_register_agent :
    (∀ p a now n e c,
      register_agent (some p) a now n e c = .error .AlreadyExists ∧
      commitAgent p (register_agent (some p) a now n e c) = p) ∧
    (∀ a now n e c,
      register_agent none a now n e c =
        .ok { authority := a, name := n, endpoint := e, capabilities := c,
              base_fee := 0, asset_mint := 0, reputation_score := 0,
              total_jobs := 0, registered_at := now, is_active := true }) :=
  ⟨fun _ _ _ _ _ _ => ⟨rfl, rfl⟩, fun _ _ _ _ _ => rfl⟩

open solana_agent_registry in
/-- Claim C5: reputation_score never exceeds the unsigned 64-bit maximum:
any number of accepted successful job reports keeps it at most U64MAX, and
from U64MAX a further accepted successful report leaves it at U64MAX, the
increment being a saturating addition. -/
theorem claimC5_reputation_saturates :
    (∀ n p p', p.reputation_score ≤ U64MAX →
      reportSeq p n = .ok p' → p'.reputation_score ≤ U64MAX) ∧
    (∀ p p', p.reputation_score = U64MAX →
      report_job_completion p true = .ok p' →
      p'.reputation_score = U64MAX) := by
  constructor
  · intro n
    induction n with
    | zero =>
      intro p p' hwf h
      simp only [reportSeq] at h
      have hpp := Except.ok.inj h
      subst hpp
      exact hwf
    | succ m ih =>
      intro p p' hwf h
      simp only [reportSeq] at h
      obtain ⟨p1, h1, h2⟩ := except_bind_ok h
      obtain ⟨-, erep, -, -⟩ := report_ok p true p1 h1
      exact ih p1 p' (by simp [erep]) h2
  · intro p p' hmax h
    obtain ⟨-, erep, -, -⟩ := report_ok p true p' h
    simp [hmax] at erep
    exact erep

/-- Claim C6: total_participants is at most total_submissions for every
reachable Leaderboard record in both variants: the inequality holds after
initialization, where both counters are zero, and is preserved by every
accepted submit_score call. -/
theorem claimC6_participants_le_submissions :
    (∀ name, (solana_leaderboard.initLeaderboard name).total_participants ≤
      (solana_leaderboard.initLeaderboard name).total_submissions) ∧
    (∀ lb us u now p j lb' us',
      lb.total_participants ≤ lb.total_submissions →
      solana_leaderboard.submit_score lb us u now p j = .ok (lb', us') →
      lb'.total_participants ≤ lb'.total_submissions) ∧
    (solana_pullups_leaderboard.initLeaderboard.total_participants ≤
      solana_pullups_leaderboard.initLeaderboard.total_submissions) ∧
    (∀ lb us u now s lb' us',
      lb.total_participants ≤ lb.total_submissions →
      solana_pullups_leaderboard.submit_score lb us u now s = .ok (lb', us') →
      lb'.total_participants ≤ lb'.total_submissions) := by
  refine ⟨fun name => le_refl 0, ?_, le_refl 0, ?_⟩
  · intro lb us u now p j lb' us' hinv h
    have step := sl_submit_score_ok lb us u now p j (lb', us') h
    obtain ⟨-, -, -, -, -, -, -, -, esub, hnew, hold⟩ := step
    by_cases hn : us.submission_count = 0
    · obtain ⟨-, epart⟩ := hnew hn
      simp only [] at epart esub
      omega
    · obtain ⟨-, epart⟩ := hold hn
      simp only [] at epart esub
      omega
  · intro lb us u now s lb' us' hinv h
    have step := sp_submit_score_ok lb us u now s (lb', us') h
    obtain ⟨-, -, -, -, -, -, esub, hnew, hold⟩ := step
    by_cases hn : us.submission_count = 0
    · obtain ⟨-, epart⟩ := hnew hn
      simp only [] at epart esub
      omega
    · obtain ⟨-, epart⟩ := hold hn
      simp only [] at epart esub
      omega

/-- Claim C7: in the combined variant a submission naming an absent
user-score record fails with NotFound instead of auto-creating it, while
the pullups variant creates the absent record zero-initialized and then
applies the submission, which succeeds on in-range inputs with the
submission recorded. -/
theorem claimC7_record_creation_policy :
    (∀ lb u now p j,
      solana_leaderboard.submit_score_txn lb none u now p j = .error .NotFound) ∧
    (∀ lb u now s,
      solana_pullups_leaderboard.submit_score_txn lb none u now s =
        solana_pullups_leaderboard.submit_score lb
          solana_pullups_leaderboard.zeroUserScore u now s) ∧
    (∀ lb u now s, s ≤ U64MAX →
      lb.total_participants + 1 ≤ U64MAX →
      lb.total_submissions + 1 ≤ U64MAX →
      solana_pullups_leaderboard.submit_score_txn lb none u now s =
        .ok ({ exercise_name := lb.exercise_name,
               total_participants := lb.total_participants + 1,
               total_submissions := lb.total_submissions + 1 },
             { user := u, total_score := s, best_single_score := s,
               submission_count := 1, last_submission_time := now,
               first_submission_time := now })) := by
  refine ⟨fun _ _ _ _ _ => rfl, fun _ _ _ _ => rfl, ?_⟩
  intro lb u now s hs hp hsub
  have one_le : (1 : Nat) ≤ U64MAX := by decide
  by_cases hpos : 0 < s
  · simp [solana_pullups_leaderboard.submit_score_txn,
      solana_pullups_leaderboard.submit_score,
      solana_pullups_leaderboard.zeroUserScore, u64add, err_bind, ok_bind,
      hs, hp, hsub, one_le, hpos]
  · have hz : s = 0 := by omega
    subst hz
    simp [solana_pullups_leaderboard.submit_score_txn,
      solana_pullups_leaderboard.submit_score,
      solana_pullups_leaderboard.zeroUserScore, u64add, err_bind, ok_bind,
      hs, hp, hsub, one_le]

open solana_agent_registry in
/-- Claim C8: every accepted agent-registry operation applied to an existing
profile leaves reputation_score and total_jobs no smaller than before, for
every representable pre-state; at total_jobs = U64MAX the job report is
rejected by the overflow guard, so no accepted operation decreases either
counter. -/
theorem claimC8_monotone_counters :
    ∀ p op p', p.reputation_score ≤ U64MAX →
      applyAgentOp (some p) op = .ok (some p') →
      p.reputation_score ≤ p'.reputation_score ∧
      p.total_jobs ≤ p'.total_jobs := by
  intro p op p' hwf h
  cases op with
  | registerAgent a now n e c =>
    simp [applyAgentOp, register_agent, Except.map] at h
  | updatePricing a f m =>
    by_cases ha : p.authority = a
    · simp [applyAgentOp, update_pricing, Except.map, ha] at h
      subst h
      exact ⟨le_refl _, le_refl _⟩
    · simp [applyAgentOp, update_pricing, Except.map, ha] at h
  | reportJob s =>
    cases hrep : report_job_completion p s with
    | error e => simp [applyAgentOp, hrep, Except.map] at h
    | ok q =>
      simp [applyAgentOp, hrep, Except.map] at h
      subst h
      obtain ⟨ej, erep, -, -⟩ := report_ok p s q hrep
      cases s with
      | false => simp at erep; omega
      | true => simp at erep; omega

/-- Claim C9: the combined-variant score computation widens both u32 inputs
to 64 bits and adds them in 64-bit arithmetic, so for every pair of inputs
below 2 to the 32nd the summation cannot overflow and yields the exact
mathematical sum. -/
theorem claimC9_widened_score :
    ∀ p j, p < 2 ^ 32 → j < 2 ^ 32 →
      solana_leaderboard.combinedScore p j = .ok (p + j) := by
  intro p j hp hj
  have hle : p + j ≤ U64MAX := by
    have e32 : (2 : Nat) ^ 32 = 4294967296 := by norm_num
    have e64 : U64MAX = 18446744073709551615 := by
      simp [U64MAX]
    omega
  simp [solana_leaderboard.combinedScore, u64add, hle]

/-- Claim C10: in the combined variant every reachable UserScore record
satisfies total_score = pullups + jumps: the zero-initialized record
satisfies it and every accepted submit_score call preserves it. -/
theorem claimC10_category_sum :
    solana_leaderboard.zeroUserScore.total_score =
      solana_leaderboard.zeroUserScore.pullups +
        solana_leaderboard.zeroUserScore.jumps ∧
    (∀ lb us u now p j lb' us',
      us.total_score = us.pullups + us.jumps →
      solana_leaderboard.submit_score lb us u now p j = .ok (lb', us') →
      us'.total_score = us'.pullups + us'.jumps) := by
  refine ⟨rfl, ?_⟩
  intro lb us u now p j lb' us' hinv h
  have step := sl_submit_score_ok lb us u now p j (lb', us') h
  obtain ⟨e1, -, -, e4, e5, -⟩ := step
  simp only [] at e1 e4 e5
  omega

/-- Witness for C1 at the three-submission scenario of the spec. -/
theorem claimC1_witness :
    (solana_leaderboard.submitSeq (solana_leaderboard.initLeaderboard "combined")
        solana_leaderboard.zeroUserScore 1 c1Calls = .ok (c1LbOut, c1UsOut)) ∧
    (c1UsOut.total_score =
        (c1Calls.map solana_leaderboard.SubmitCall.score).sum ∧
      c1UsOut.best_single_score =
        (c1Calls.map solana_leaderboard.SubmitCall.score).foldl max 0 ∧
      c1UsOut.submission_count = c1Calls.length) ∧
    (solana_pullups_leaderboard.submitSeq
        solana_pullups_leaderboard.initLeaderboard
        solana_pullups_leaderboard.zeroUserScore 1 c1PCalls =
      .ok (c1PLbOut, c1PUsOut)) ∧
    (c1PUsOut.total_score =
        (c1PCalls.map solana_pullups_leaderboard.PullupCall.score_value).sum ∧
      c1PUsOut.best_single_score =
        (c1PCalls.map solana_pullups_leaderboard.PullupCall.score_value).foldl max 0 ∧
      c1PUsOut.submission_count = c1PCalls.length) := by
  have h1 : solana_leaderboard.submitSeq
      (solana_leaderboard.initLeaderboard "combined")
      solana_leaderboard.zeroUserScore 1 c1Calls = .ok (c1LbOut, c1UsOut) := by rfl
  have h2 : solana_pullups_leaderboard.submitSeq
      solana_pullups_leaderboard.initLeaderboard
      solana_pullups_leaderboard.zeroUserScore 1 c1PCalls =
      .ok (c1PLbOut, c1PUsOut) := by rfl
  exact ⟨h1, claimC1_totals.1 _ 1 _ _ _ h1, h2, claimC1_totals.2 _ 1 _ _ _ h2⟩

/-- Witness for C2 at concrete two-call sequences and concrete later calls. -/
theorem claimC2_witness :
    (solana_leaderboard.submitSeq c2LbIn solana_leaderboard.zeroUserScore 1
        (c2Call1 :: c2Rest) = .ok (c2LbOut, c2UsOut)) ∧
    (c2UsOut.first_submission_time = c2Call1.now ∧
      c2LbOut.total_participants = c2LbIn.total_participants + 1) ∧
    (c2UsIn2.submission_count ≠ 0 ∧
      solana_leaderboard.submit_score c2LbIn2 c2UsIn2 1 60 1 1 =
        .ok (c2LbOut2, c2UsOut2)) ∧
    (c2UsOut2.first_submission_time = c2UsIn2.first_submission_time ∧
      c2LbOut2.total_participants = c2LbIn2.total_participants) ∧
    (solana_pullups_leaderboard.submitSeq c2PLbIn
        solana_pullups_leaderboard.zeroUserScore 1 (c2PCall1 :: c2PRest) =
      .ok (c2PLbOut, c2PUsOut)) ∧
    (c2PUsOut.first_submission_time = c2PCall1.now ∧
      c2PLbOut.total_participants = c2PLbIn.total_participants + 1) ∧
    (c2PUsIn2.submission_count ≠ 0 ∧
      solana_pullups_leaderboard.submit_score c2PLbIn2 c2PUsIn2 1 60 2 =
        .ok (c2PLbOut2, c2PUsOut2)) ∧
    (c2PUsOut2.first_submission_time = c2PUsIn2.first_submission_time ∧
      c2PLbOut2.total_participants = c2PLbIn2.total_participants) := by
  have h1 : solana_leaderboard.submitSeq c2LbIn solana_leaderboard.zeroUserScore
      1 (c2Call1 :: c2Rest) = .ok (c2LbOut, c2UsOut) := by rfl
  have h2 : solana_leaderboard.submit_score c2LbIn2 c2UsIn2 1 60 1 1 =
      .ok (c2LbOut2, c2UsOut2) := by rfl
  have h3 : solana_pullups_leaderboard.submitSeq c2PLbIn
      solana_pullups_leaderboard.zeroUserScore 1 (c2PCall1 :: c2PRest) =
      .ok (c2PLbOut, c2PUsOut) := by rfl
  have h4 : solana_pullups_leaderboard.submit_score c2PLbIn2 c2PUsIn2 1 60 2 =
      .ok (c2PLbOut2, c2PUsOut2) := by rfl
  refine ⟨h1, claimC2_new_user_once.1 _ 1 _ _ _ _ h1,
    ⟨by decide, h2⟩, claimC2_new_user_once.2.1 _ _ 1 60 1 1 _ _ (by decide) h2,
    h3, claimC2_new_user_once.2.2.1 _ 1 _ _ _ _ h3,
    ⟨by decide, h4⟩, claimC2_new_user_once.2.2.2 _ _ 1 60 2 _ _ (by decide) h4⟩

/-- Witness for C3 at a concrete profile and a different caller. -/
theorem claimC3_witness :
    (2 : Nat) ≠ c3Profile.authority ∧
    (solana_agent_registry.update_pricing c3Profile 2 500 9 =
        .error .Unauthorized ∧
      solana_agent_registry.commitAgent c3Profile
        (solana_agent_registry.update_pricing c3Profile 2 500 9) = c3Profile) :=
  ⟨by decide, claimC3_update_pricing_unauthorized c3Profile 2 500 9 (by decide)⟩

/-- Witness for C5 at a profile whose reputation already sits at U64MAX. -/
theorem claimC5_witness :
    c5Profile.reputation_score ≤ U64MAX ∧
    solana_agent_registry.reportSeq c5Profile 3 = .ok c5ProfileOut ∧
    c5ProfileOut.reputation_score ≤ U64MAX ∧
    c5Profile.reputation_score = U64MAX ∧
    solana_agent_registry.report_job_completion c5Profile true =
      .ok c5ProfileStep ∧
    c5ProfileStep.reputation_score = U64MAX := by
  have h1 : solana_agent_registry.reportSeq c5Profile 3 = .ok c5ProfileOut := by rfl
  have h2 : solana_agent_registry.report_job_completion c5Profile true =
      .ok c5ProfileStep := by rfl
  exact ⟨by decide, h1, claimC5_reputation_saturates.1 3 _ _ (by decide) h1,
    by decide, h2, claimC5_reputation_saturates.2 _ _ (by decide) h2⟩

/-- Witness for C6 at concrete leaderboards and accepted submissions. -/
theorem claimC6_witness :
    (solana_leaderboard.initLeaderboard "x").total_participants ≤
      (solana_leaderboard.initLeaderboard "x").total_submissions ∧
    c6LbIn.total_participants ≤ c6LbIn.total_submissions ∧
    solana_leaderboard.submit_score c6LbIn solana_leaderboard.zeroUserScore
      1 10 2 3 = .ok (c6LbOut, c6UsOut) ∧
    c6LbOut.total_participants ≤ c6LbOut.total_submissions ∧
    c6PLbIn.total_participants ≤ c6PLbIn.total_submissions ∧
    solana_pullups_leaderboard.submit_score c6PLbIn
      solana_pullups_leaderboard.zeroUserScore 1 10 4 = .ok (c6PLbOut, c6PUsOut) ∧
    c6PLbOut.total_participants ≤ c6PLbOut.total_submissions := by
  have h1 : solana_leaderboard.submit_score c6LbIn
      solana_leaderboard.zeroUserScore 1 10 2 3 = .ok (c6LbOut, c6UsOut) := by rfl
  have h2 : solana_pullups_leaderboard.submit_score c6PLbIn
      solana_pullups_leaderboard.zeroUserScore 1 10 4 =
      .ok (c6PLbOut, c6PUsOut) := by rfl
  exact ⟨claimC6_participants_le_submissions.1 "x", by decide, h1,
    claimC6_participants_le_submissions.2.1 _ _ 1 10 2 3 _ _ (by decide) h1,
    by decide, h2,
    claimC6_participants_le_submissions.2.2.2 _ _ 1 10 4 _ _ (by decide) h2⟩

/-- Witness for C7 at an absent record in both variants. -/
theorem claimC7_witness :
    (solana_leaderboard.submit_score_txn c6LbIn none 1 10 2 3 =
      .error .NotFound) ∧
    (10 : Nat) ≤ U64MAX ∧
    (solana_pullups_leaderboard.initLeaderboard.total_participants + 1 ≤ U64MAX) ∧
    (solana_pullups_leaderboard.initLeaderboard.total_submissions + 1 ≤ U64MAX) ∧
    solana_pullups_leaderboard.submit_score_txn
      solana_pullups_leaderboard.initLeaderboard none 1 100 10 =
      .ok (⟨"pullups", 1, 1⟩, ⟨1, 10, 10, 1, 100, 100⟩) :=
  ⟨claimC7_record_creation_policy.1 c6LbIn 1 10 2 3, by decide, by decide,
    by decide,
    claimC7_record_creation_policy.2.2 solana_pullups_leaderboard.initLeaderboard
      1 100 10 (by decide) (by decide) (by decide)⟩

/-- Witness for C8 at a concrete profile and a successful job report. -/
theorem claimC8_witness :
    c3Profile.reputation_score ≤ U64MAX ∧
    solana_agent_registry.applyAgentOp (some c3Profile) (.reportJob true) =
      .ok (some c8ProfileOut) ∧
    (c3Profile.reputation_score ≤ c8ProfileOut.reputation_score ∧
      c3Profile.total_jobs ≤ c8ProfileOut.total_jobs) := by
  have h : solana_agent_registry.applyAgentOp (some c3Profile)
      (.reportJob true) = .ok (some c8ProfileOut) := by rfl
  exact ⟨by decide, h, claimC8_monotone_counters c3Profile _ _ (by decide) h⟩

/-- Witness for C9 at inputs 10 and 20. -/
theorem claimC9_witness :
    (10 : Nat) < 2 ^ 32 ∧ (20 : Nat) < 2 ^ 32 ∧
    solana_leaderboard.combinedScore 10 20 = .ok 30 :=
  ⟨by decide, by decide, claimC9_widened_score 10 20 (by decide) (by decide)⟩

/-- Witness for C10 at a record satisfying the invariant. -/
theorem claimC10_witness :
    c10UsIn.total_score = c10UsIn.pullups + c10UsIn.jumps ∧
    solana_leaderboard.submit_score c10LbIn c10UsIn 1 20 2 3 =
      .ok (c10LbOut, c10UsOut) ∧
    c10UsOut.total_score = c10UsOut.pullups + c10UsOut.jumps := by
  have h : solana_leaderboard.submit_score c10LbIn c10UsIn 1 20 2 3 =
      .ok (c10LbOut, c10UsOut) := by rfl
  exact ⟨by decide, h, claimC10_category_sum.2 _ _ 1 20 2 3 _ _ (by decide) h⟩
